import Mathlib

/-!
Verification development for the btcd_exporter repository.

The repository ships two small variants of the same program:
* the extended variant (`btcd_exporter.go`): scrapes `getInfo`, `getNetTotals`,
  `getBestBlockHash` and `getBlockHeader`, exporting seven metrics including
  `latest_block_timestamp`, and handles a TLS certificate file at startup;
* the basic variant (second Go file of the repository): scrapes only `getInfo`
  and `getNetTotals`, exporting six metrics, and has no certificate handling.

Shallow embedding conventions:
* Go `int`/`int32`/`int64`/`uint64` fields carry straight through the program
  with no arithmetic performed on them, so they are modelled as `Int`;
* Go `float64` metric values are modelled as exact rationals (`Rat`); every
  concrete value appearing here is exactly representable in binary64;
* a fallible RPC call is `Except Err α` with `Err := String`;
* the upstream `rpcclient.Client` is modelled as a record of query outcomes
  (one per RPC method); a collection cycle consumes those outcomes in the
  order the Go code issues them, and the issued calls are recorded in a trace;
* emitting to the `chan<- prometheus.Metric` is modelled as returning the
  list of emitted samples in order; `log.Println` is modelled as a returned
  list of log lines; `log.Fatal` is a terminal startup outcome.
-/

/-- Transport/protocol error of an upstream RPC call. -/
abbrev Err := String

/-- A block hash (`chainhash.Hash` in btcd), kept opaque. -/
abbrev BlockHash := String

/-- The Go constant `namespace = "btcd"` (renamed: `namespace` is a Lean keyword). -/
def namespaceStr : String := "btcd"

/-- `prometheus.BuildFQName(namespace, subsystem, name)`: joins the non-empty
components with underscores; empty `name` yields the empty string. -/
def buildFQName (ns sub name : String) : String :=
  if name = "" then ""
  else if ns ≠ "" ∧ sub ≠ "" then ns ++ "_" ++ sub ++ "_" ++ name
  else if ns ≠ "" then ns ++ "_" ++ name
  else if sub ≠ "" then sub ++ "_" ++ name
  else name

/-- A `prometheus.Desc`: fully-qualified metric name plus help text
(the program uses no labels, so they are omitted). -/
structure Desc where
  fqName : String
  help : String
deriving DecidableEq, Repr

/-- `prometheus.ValueType` as used by the program: `CounterValue` or `GaugeValue`. -/
inductive ValueKind where
  | counter
  | gauge
deriving DecidableEq, Repr

/-- A constant metric sample as built by `prometheus.MustNewConstMetric`. -/
structure Metric where
  desc : Desc
  kind : ValueKind
  value : Rat
deriving DecidableEq, Repr

/-- Descriptor `up`. -/
def up : Desc :=
  ⟨buildFQName namespaceStr "" "up", "Was the last btcd query successful."⟩

/-- Descriptor `blocks`. -/
def blocks : Desc :=
  ⟨buildFQName namespaceStr "" "blocks_total",
   "How many blocks are reported by btcd getinfo."⟩

/-- Descriptor `latestBlock` (extended variant only). -/
def latestBlock : Desc :=
  ⟨buildFQName namespaceStr "" "latest_block_timestamp",
   "Timestamp of the latest block in the chain. According to block header information."⟩

/-- Descriptor `peers`. -/
def peers : Desc :=
  ⟨buildFQName namespaceStr "" "peers",
   "How many peers are reported by btcd getinfo."⟩

/-- Descriptor `difficulty`. -/
def difficulty : Desc :=
  ⟨buildFQName namespaceStr "" "difficulty",
   "What is difficulty reported by btcd getinfo."⟩

/-- Descriptor `bytesSent`. -/
def bytesSent : Desc :=
  ⟨buildFQName namespaceStr "" "sent_bytes",
   "How many bytes have been sent reported by btcd getnettotals."⟩

/-- Descriptor `bytesReceived`. -/
def bytesReceived : Desc :=
  ⟨buildFQName namespaceStr "" "received_bytes",
   "How many bytes have been received reported by btcd getnettotals."⟩

/-- Result of `client.GetInfo()` (btcd `InfoChainResult`): the fields the
program reads. `Blocks`, `Connections` are `int32` in Go, `Difficulty` a
`float64`. -/
structure InfoChainResult where
  Blocks : Int
  Connections : Int
  Difficulty : Rat
deriving DecidableEq, Repr

/-- Result of `client.GetNetTotals()` (btcd `GetNetTotalsResult`): the fields
the program reads. Both are `uint64` in Go. -/
structure GetNetTotalsResult where
  TotalBytesSent : Int
  TotalBytesRecv : Int
deriving DecidableEq, Repr

/-- Result of `client.GetBlockHeader(hash)`: the program reads only
`Timestamp.Unix()`, modelled directly as the Unix timestamp. -/
structure BlockHeader where
  TimestampUnix : Int
deriving DecidableEq, Repr

/-- The upstream `rpcclient.Client` session, modelled as the outcomes its
four query methods would return during one collection cycle. -/
structure Client where
  getInfo : Except Err InfoChainResult
  getNetTotals : Except Err GetNetTotalsResult
  getBestBlockHash : Except Err BlockHash
  getBlockHeader : BlockHash → Except Err BlockHeader

/-- One issued upstream RPC call, for call-order traces. -/
inductive RpcCall where
  | getInfo
  | getNetTotals
  | getBestBlockHash
  | getBlockHeader (hash : BlockHash)
deriving DecidableEq, Repr

namespace Ext

/-- `BtcdStatistics` of the extended variant. -/
structure BtcdStatistics where
  blocks : Int
  peers : Int
  difficulty : Rat
  bytesSent : Int
  bytesReceived : Int
  latestBlockTs : Int
deriving DecidableEq, Repr

/-- `newBtcdStatistics` of the extended variant. -/
def newBtcdStatistics (blocks peers : Int) (difficulty : Rat)
    (bytesSent bytesReceived latestBlockTs : Int) : BtcdStatistics :=
  { blocks := blocks
    peers := peers
    difficulty := difficulty
    bytesSent := bytesSent
    bytesReceived := bytesReceived
    latestBlockTs := latestBlockTs }

/-- `Exporter.GetAllStatistics` of the extended variant, instrumented with the
trace of upstream calls it issues. Mirrors the Go body: `GetInfo`, then
`GetNetTotals`, then `GetBestBlockHash`, then `GetBlockHeader` on the returned
hash, returning `nil, err` at the first failure. -/
def GetAllStatisticsTr (c : Client) :
    Except Err BtcdStatistics × List RpcCall :=
  match c.getInfo with
  | .error err => (.error err, [.getInfo])
  | .ok info =>
    match c.getNetTotals with
    | .error err => (.error err, [.getInfo, .getNetTotals])
    | .ok netTotals =>
      match c.getBestBlockHash with
      | .error err => (.error err, [.getInfo, .getNetTotals, .getBestBlockHash])
      | .ok bestBlockHash =>
        match c.getBlockHeader bestBlockHash with
        | .error err =>
            (.error err,
             [.getInfo, .getNetTotals, .getBestBlockHash,
              .getBlockHeader bestBlockHash])
        | .ok blockHeader =>
            (.ok (newBtcdStatistics info.Blocks info.Connections info.Difficulty
                    netTotals.TotalBytesSent netTotals.TotalBytesRecv
                    blockHeader.TimestampUnix),
             [.getInfo, .getNetTotals, .getBestBlockHash,
              .getBlockHeader bestBlockHash])

/-- `Exporter.GetAllStatistics` of the extended variant (result only). -/
def GetAllStatistics (c : Client) : Except Err BtcdStatistics :=
  (GetAllStatisticsTr c).1

/-- `Exporter.Collect` of the extended variant: the list of samples sent to
the channel, in order, paired with the `log.Println` lines. The function is
total — upstream errors are absorbed, never raised to the caller. -/
def Collect (c : Client) : List Metric × List String :=
  match GetAllStatistics c with
  | .error err => ([⟨up, .gauge, 0⟩], [err])
  | .ok statistics =>
      ([⟨up, .gauge, 1⟩,
        ⟨blocks, .counter, (statistics.blocks : Rat)⟩,
        ⟨peers, .gauge, (statistics.peers : Rat)⟩,
        ⟨difficulty, .gauge, statistics.difficulty⟩,
        ⟨bytesSent, .counter, (statistics.bytesSent : Rat)⟩,
        ⟨bytesReceived, .gauge, (statistics.bytesReceived : Rat)⟩,
        ⟨latestBlock, .gauge, (statistics.latestBlockTs : Rat)⟩],
       [])

/-- `Exporter.Describe` of the extended variant: the descriptors sent to the
channel, in order. -/
def describe : List Desc :=
  [up, blocks, peers, difficulty, bytesSent, bytesReceived, latestBlock]

end Ext

namespace Basic

/-- `BtcdStatistics` of the basic variant (no latest-block field). -/
structure BtcdStatistics where
  blocks : Int
  peers : Int
  difficulty : Rat
  bytesSent : Int
  bytesReceived : Int
deriving DecidableEq, Repr

/-- `newBtcdStatistics` of the basic variant. -/
def newBtcdStatistics (blocks peers : Int) (difficulty : Rat)
    (bytesSent bytesReceived : Int) : BtcdStatistics :=
  { blocks := blocks
    peers := peers
    difficulty := difficulty
    bytesSent := bytesSent
    bytesReceived := bytesReceived }

/-- `Exporter.GetAllStatistics` of the basic variant, instrumented with the
trace of upstream calls it issues. Mirrors the Go body: `GetInfo`, then
`GetNetTotals`, returning `nil, err` at the first failure; the block-hash and
block-header methods of the client are never invoked. -/
def GetAllStatisticsTr (c : Client) :
    Except Err BtcdStatistics × List RpcCall :=
  match c.getInfo with
  | .error err => (.error err, [.getInfo])
  | .ok info =>
    match c.getNetTotals with
    | .error err => (.error err, [.getInfo, .getNetTotals])
    | .ok netTotals =>
        (.ok (newBtcdStatistics info.Blocks info.Connections info.Difficulty
                netTotals.TotalBytesSent netTotals.TotalBytesRecv),
         [.getInfo, .getNetTotals])

/-- `Exporter.GetAllStatistics` of the basic variant (result only). -/
def GetAllStatistics (c : Client) : Except Err BtcdStatistics :=
  (GetAllStatisticsTr c).1

/-- `Exporter.Collect` of the basic variant: samples sent to the channel, in
order, paired with the `log.Println` lines. Total — upstream errors are
absorbed, never raised to the caller. -/
def Collect (c : Client) : List Metric × List String :=
  match GetAllStatistics c with
  | .error err => ([⟨up, .gauge, 0⟩], [err])
  | .ok statistics =>
      ([⟨up, .gauge, 1⟩,
        ⟨blocks, .counter, (statistics.blocks : Rat)⟩,
        ⟨peers, .gauge, (statistics.peers : Rat)⟩,
        ⟨difficulty, .gauge, statistics.difficulty⟩,
        ⟨bytesSent, .counter, (statistics.bytesSent : Rat)⟩,
        ⟨bytesReceived, .gauge, (statistics.bytesReceived : Rat)⟩],
       [])

/-- `Exporter.Describe` of the basic variant: the descriptors sent to the
channel, in order. -/
def describe : List Desc :=
  [up, blocks, peers, difficulty, bytesSent, bytesReceived]

end Basic

/-! ### Startup (`main`) of both variants

`main` is modelled up to the point the HTTP server is bound: configuration
comes in as explicit values (the four environment variables), the filesystem
and the RPC-client constructor come in as oracles, and the side effects that
matter to the claims — reading the certificate file, constructing the
upstream client, binding the listening port — are recorded as events.
`log.Fatal` terminates the process with a nonzero exit status after printing
its message; it is a terminal outcome carrying the diagnostic message. -/

/-- An observable startup side effect of `main`. -/
inductive StartupEvent where
  | readCertFile (path : String)
  | newRpcClient (host username password : String) (certs : Option String)
  | bindPort (port : Nat)
deriving DecidableEq, Repr

/-- How far `main` got. `fatal msg` is `log.Fatal`: the process prints the
diagnostic and exits with a nonzero status. `serving` means the port was
bound and the HTTP server is running. -/
inductive StartupOutcome where
  | fatal (msg : String)
  | serving
deriving DecidableEq, Repr

/-- `filepath.Join` for the one two-component use in the program (separator
abstracted to `/`; the default-path directory itself is already abstract). -/
def filepathJoin (dir file : String) : String := dir ++ "/" ++ file

namespace Ext

/-- `main` of the extended variant, up to binding the port: takes the four
environment variables (`os.Getenv` yields `""` when unset), the directory
`btcutil.AppDataDir("btcd", false)` computes (an external library call,
abstracted as an input), a filesystem oracle for `ioutil.ReadFile`, and an
oracle for whether `rpcclient.New` succeeds. Returns the outcome and the
event trace in execution order. -/
def mainStartup (host username password certPathEnv : String)
    (btcdHomeDir : String) (readFile : String → Except Err String)
    (rpcNew : Except Err Unit) : StartupOutcome × List StartupEvent :=
  if host = "" ∨ username = "" ∨ password = "" then
    (.fatal "BTCD_EXPORTER_HOST, BTCD_EXPORTER_USERNAME, BTCD_EXPORTER_PASSWORD must be set",
     [])
  else
    let certPath :=
      if certPathEnv = "" then filepathJoin btcdHomeDir "rpc.cert"
      else certPathEnv
    match readFile certPath with
    | .error err =>
        (.fatal ("error reading cert file: " ++ err), [.readCertFile certPath])
    | .ok certs =>
      match rpcNew with
      | .error err =>
          (.fatal err,
           [.readCertFile certPath,
            .newRpcClient host username password (some certs)])
      | .ok _ =>
          (.serving,
           [.readCertFile certPath,
            .newRpcClient host username password (some certs),
            .bindPort 9101])

end Ext

namespace Basic

/-- `main` of the basic variant, up to binding the port: takes the three
environment variables (`os.Getenv` yields `""` when unset) and an oracle for
whether `rpcclient.New` succeeds. The basic variant reads no certificate
file — no filesystem access occurs at all. -/
def mainStartup (host username password : String)
    (rpcNew : Except Err Unit) : StartupOutcome × List StartupEvent :=
  if host = "" ∨ username = "" ∨ password = "" then
    (.fatal "BTCD_EXPORTER_HOST, BTCD_EXPORTER_USERNAME, BTCD_EXPORTER_PASSWORD must be set",
     [])
  else
    match rpcNew with
    | .error err =>
        (.fatal err, [.newRpcClient host username password none])
    | .ok _ =>
        (.serving,
         [.newRpcClient host username password none, .bindPort 9101])

end Basic

/-! ### Concrete clients used by witnesses -/

/-- A client on which every query succeeds, with the values of the spec's
Scenario A and Scenario C (header timestamp 1700000000). -/
def scenarioAClient : Client :=
  { getInfo := .ok ⟨800000, 8, 55000000000000⟩
    getNetTotals := .ok ⟨1000000, 2000000⟩
    getBestBlockHash := .ok "besthash"
    getBlockHeader := fun _ => .ok ⟨1700000000⟩ }

/-- A client on which `getInfo` fails with a connection-refused error
(the spec's Scenario B). -/
def infoFailClient : Client :=
  { getInfo := .error "connection refused"
    getNetTotals := .ok ⟨1000000, 2000000⟩
    getBestBlockHash := .ok "besthash"
    getBlockHeader := fun _ => .ok ⟨1700000000⟩ }

/-- A second all-success client with different values, for shape-constancy. -/
def scenarioA2Client : Client :=
  { getInfo := .ok ⟨800001, 9, 56000000000000⟩
    getNetTotals := .ok ⟨1000500, 2000500⟩
    getBestBlockHash := .ok "otherhash"
    getBlockHeader := fun _ => .ok ⟨1700000600⟩ }

/-! ### Claims -/

/-- C1: in both variants, whenever any upstream query of the cycle fails,
`Collect` emits exactly one sample — the `up` gauge with value 0 — and no
sample for any other descriptor; the causing error (the first failing
query's error) is the one logged line; and `Collect` being total with no
error channel, no error is raised to the caller. -/
theorem collect_failure_emits_only_up_zero (c : Client) :
    ((∀ e, c.getInfo = .error e →
        Basic.Collect c = ([⟨up, .gauge, 0⟩], [e])) ∧
     (∀ info e, c.getInfo = .ok info → c.getNetTotals = .error e →
        Basic.Collect c = ([⟨up, .gauge, 0⟩], [e]))) ∧
    ((∀ e, c.getInfo = .error e →
        Ext.Collect c = ([⟨up, .gauge, 0⟩], [e])) ∧
     (∀ info e, c.getInfo = .ok info → c.getNetTotals = .error e →
        Ext.Collect c = ([⟨up, .gauge, 0⟩], [e])) ∧
     (∀ info netTotals e, c.getInfo = .ok info → c.getNetTotals = .ok netTotals →
        c.getBestBlockHash = .error e →
        Ext.Collect c = ([⟨up, .gauge, 0⟩], [e])) ∧
     (∀ info netTotals bh e, c.getInfo = .ok info → c.getNetTotals = .ok netTotals →
        c.getBestBlockHash = .ok bh → c.getBlockHeader bh = .error e →
        Ext.Collect c = ([⟨up, .gauge, 0⟩], [e]))) := by
  refine ⟨⟨?_, ?_⟩, ?_, ?_, ?_, ?_⟩ <;> intros <;>
    simp_all [Basic.Collect, Basic.GetAllStatistics, Basic.GetAllStatisticsTr,
      Ext.Collect, Ext.GetAllStatistics, Ext.GetAllStatisticsTr]

/-- Witness for C1 at the concrete Scenario-B client, both variants. -/
theorem collect_failure_emits_only_up_zero_witness :
    infoFailClient.getInfo = .error "connection refused" ∧
    Basic.Collect infoFailClient = ([⟨up, .gauge, 0⟩], ["connection refused"]) ∧
    Ext.Collect infoFailClient = ([⟨up, .gauge, 0⟩], ["connection refused"]) :=
  ⟨rfl,
   (collect_failure_emits_only_up_zero infoFailClient).1.1 _ rfl,
   (collect_failure_emits_only_up_zero infoFailClient).2.1 _ rfl⟩

/-- C2: in both variants, whenever every upstream query of the cycle
succeeds, `Collect` emits `up=1` exactly once followed by exactly one sample
per descriptor, each value the corresponding snapshot field verbatim (only
coerced to the sample's numeric type), and nothing is logged. -/
theorem collect_success_samples_verbatim (c : Client) :
    (∀ info netTotals,
       c.getInfo = .ok info → c.getNetTotals = .ok netTotals →
       Basic.Collect c =
         ([⟨up, .gauge, 1⟩,
           ⟨blocks, .counter, (info.Blocks : Rat)⟩,
           ⟨peers, .gauge, (info.Connections : Rat)⟩,
           ⟨difficulty, .gauge, info.Difficulty⟩,
           ⟨bytesSent, .counter, (netTotals.TotalBytesSent : Rat)⟩,
           ⟨bytesReceived, .gauge, (netTotals.TotalBytesRecv : Rat)⟩], [])) ∧
    (∀ info netTotals bh hdr,
       c.getInfo = .ok info → c.getNetTotals = .ok netTotals →
       c.getBestBlockHash = .ok bh → c.getBlockHeader bh = .ok hdr →
       Ext.Collect c =
         ([⟨up, .gauge, 1⟩,
           ⟨blocks, .counter, (info.Blocks : Rat)⟩,
           ⟨peers, .gauge, (info.Connections : Rat)⟩,
           ⟨difficulty, .gauge, info.Difficulty⟩,
           ⟨bytesSent, .counter, (netTotals.TotalBytesSent : Rat)⟩,
           ⟨bytesReceived, .gauge, (netTotals.TotalBytesRecv : Rat)⟩,
           ⟨latestBlock, .gauge, (hdr.TimestampUnix : Rat)⟩], [])) := by
  refine ⟨?_, ?_⟩ <;> intros <;>
    simp_all [Basic.Collect, Basic.GetAllStatistics, Basic.GetAllStatisticsTr,
      Basic.newBtcdStatistics, Ext.Collect, Ext.GetAllStatistics,
      Ext.GetAllStatisticsTr, Ext.newBtcdStatistics]

/-- Witness for C2 at the spec's Scenario A (extended with Scenario C's
header timestamp): height=800000, peers=8, difficulty=55e12, sent=1000000,
received=2000000, timestamp=1700000000. -/
theorem collect_success_samples_verbatim_witness :
    scenarioAClient.getInfo = .ok ⟨800000, 8, 55000000000000⟩ ∧
    scenarioAClient.getNetTotals = .ok ⟨1000000, 2000000⟩ ∧
    Basic.Collect scenarioAClient =
      ([⟨up, .gauge, 1⟩, ⟨blocks, .counter, 800000⟩, ⟨peers, .gauge, 8⟩,
        ⟨difficulty, .gauge, 55000000000000⟩, ⟨bytesSent, .counter, 1000000⟩,
        ⟨bytesReceived, .gauge, 2000000⟩], []) ∧
    Ext.Collect scenarioAClient =
      ([⟨up, .gauge, 1⟩, ⟨blocks, .counter, 800000⟩, ⟨peers, .gauge, 8⟩,
        ⟨difficulty, .gauge, 55000000000000⟩, ⟨bytesSent, .counter, 1000000⟩,
        ⟨bytesReceived, .gauge, 2000000⟩, ⟨latestBlock, .gauge, 1700000000⟩], []) :=
  ⟨rfl, rfl,
   (collect_success_samples_verbatim scenarioAClient).1 _ _ rfl rfl,
   (collect_success_samples_verbatim scenarioAClient).2 _ _ _ _ rfl rfl rfl rfl⟩

/-- C3: in both variants the upstream calls of one cycle are issued in the
fixed order `getInfo`, `getNetTotals` (extended variant: then
`getBestBlockHash`, then `getBlockHeader`), short-circuiting at the first
failure: the recorded trace after a failing call contains no later call, and
the basic variant never issues the block-hash/header calls at all. -/
theorem getAllStatistics_call_order (c : Client) :
    ((∀ e, c.getInfo = .error e →
        (Basic.GetAllStatisticsTr c).2 = [.getInfo]) ∧
     (∀ info, c.getInfo = .ok info →
        (Basic.GetAllStatisticsTr c).2 = [.getInfo, .getNetTotals])) ∧
    ((∀ e, c.getInfo = .error e →
        (Ext.GetAllStatisticsTr c).2 = [.getInfo]) ∧
     (∀ info e, c.getInfo = .ok info → c.getNetTotals = .error e →
        (Ext.GetAllStatisticsTr c).2 = [.getInfo, .getNetTotals]) ∧
     (∀ info netTotals e, c.getInfo = .ok info → c.getNetTotals = .ok netTotals →
        c.getBestBlockHash = .error e →
        (Ext.GetAllStatisticsTr c).2 =
          [.getInfo, .getNetTotals, .getBestBlockHash]) ∧
     (∀ info netTotals bh, c.getInfo = .ok info → c.getNetTotals = .ok netTotals →
        c.getBestBlockHash = .ok bh →
        (Ext.GetAllStatisticsTr c).2 =
          [.getInfo, .getNetTotals, .getBestBlockHash, .getBlockHeader bh])) := by
  refine ⟨⟨?_, ?_⟩, ?_, ?_, ?_, ?_⟩
  · intro e he
    simp [Basic.GetAllStatisticsTr, he]
  · intro info hi
    rcases hnt : c.getNetTotals with e | netTotals <;>
      simp [Basic.GetAllStatisticsTr, hi, hnt]
  · intro e he
    simp [Ext.GetAllStatisticsTr, he]
  · intro info e hi he
    simp [Ext.GetAllStatisticsTr, hi, he]
  · intro info netTotals e hi hnt he
    simp [Ext.GetAllStatisticsTr, hi, hnt, he]
  · intro info netTotals bh hi hnt hbh
    rcases hhd : c.getBlockHeader bh with e | hdr <;>
      simp [Ext.GetAllStatisticsTr, hi, hnt, hbh, hhd]

/-- Witness for C3: at the Scenario-B client the trace stops after `getInfo`
in both variants. -/
theorem getAllStatistics_call_order_witness :
    infoFailClient.getInfo = .error "connection refused" ∧
    (Basic.GetAllStatisticsTr infoFailClient).2 = [.getInfo] ∧
    (Ext.GetAllStatisticsTr infoFailClient).2 = [.getInfo] :=
  ⟨rfl,
   (getAllStatistics_call_order infoFailClient).1.1 _ rfl,
   (getAllStatistics_call_order infoFailClient).2.1 _ rfl⟩

/-- C4: in both variants `GetAllStatistics` returns either an error and no
snapshot, or a snapshot every field of which comes verbatim from a
successful upstream query of this cycle; no partially-filled snapshot ever
exists, and fields fetched before a later failure are discarded with the
error result. -/
theorem getAllStatistics_all_or_nothing (c : Client) :
    ((∃ e, Basic.GetAllStatistics c = .error e) ∨
     (∃ info netTotals, c.getInfo = .ok info ∧ c.getNetTotals = .ok netTotals ∧
        Basic.GetAllStatistics c =
          .ok ⟨info.Blocks, info.Connections, info.Difficulty,
               netTotals.TotalBytesSent, netTotals.TotalBytesRecv⟩)) ∧
    ((∃ e, Ext.GetAllStatistics c = .error e) ∨
     (∃ info netTotals bh hdr, c.getInfo = .ok info ∧
        c.getNetTotals = .ok netTotals ∧ c.getBestBlockHash = .ok bh ∧
        c.getBlockHeader bh = .ok hdr ∧
        Ext.GetAllStatistics c =
          .ok ⟨info.Blocks, info.Connections, info.Difficulty,
               netTotals.TotalBytesSent, netTotals.TotalBytesRecv,
               hdr.TimestampUnix⟩)) := by
  constructor
  · rcases hi : c.getInfo with e | info
    · exact .inl ⟨e, by simp [Basic.GetAllStatistics, Basic.GetAllStatisticsTr, hi]⟩
    · rcases hnt : c.getNetTotals with e | netTotals
      · exact .inl ⟨e, by
          simp [Basic.GetAllStatistics, Basic.GetAllStatisticsTr, hi, hnt]⟩
      · exact .inr ⟨info, netTotals, rfl, rfl, by
          simp [Basic.GetAllStatistics, Basic.GetAllStatisticsTr,
            Basic.newBtcdStatistics, hi, hnt]⟩
  · rcases hi : c.getInfo with e | info
    · exact .inl ⟨e, by simp [Ext.GetAllStatistics, Ext.GetAllStatisticsTr, hi]⟩
    · rcases hnt : c.getNetTotals with e | netTotals
      · exact .inl ⟨e, by
          simp [Ext.GetAllStatistics, Ext.GetAllStatisticsTr, hi, hnt]⟩
      · rcases hbh : c.getBestBlockHash with e | bh
        · exact .inl ⟨e, by
            simp [Ext.GetAllStatistics, Ext.GetAllStatisticsTr, hi, hnt, hbh]⟩
        · rcases hhd : c.getBlockHeader bh with e | hdr
          · exact .inl ⟨e, by
              simp [Ext.GetAllStatistics, Ext.GetAllStatisticsTr, hi, hnt, hbh, hhd]⟩
          · exact .inr ⟨info, netTotals, bh, hdr, rfl, rfl, rfl, hhd, by
              simp [Ext.GetAllStatistics, Ext.GetAllStatisticsTr,
                Ext.newBtcdStatistics, hi, hnt, hbh, hhd]⟩

/-- C5: on a successful scrape the samples carry the declared value kinds:
`up` gauge, `blocks_total` counter, `peers` gauge, `difficulty` gauge,
`sent_bytes` counter, `received_bytes` gauge, and in the extended variant
`latest_block_timestamp` gauge. -/
theorem collect_success_value_kinds (c : Client) :
    (∀ info netTotals,
       c.getInfo = .ok info → c.getNetTotals = .ok netTotals →
       (Basic.Collect c).1.map (fun m => (m.desc, m.kind)) =
         [(up, .gauge), (blocks, .counter), (peers, .gauge),
          (difficulty, .gauge), (bytesSent, .counter),
          (bytesReceived, .gauge)]) ∧
    (∀ info netTotals bh hdr,
       c.getInfo = .ok info → c.getNetTotals = .ok netTotals →
       c.getBestBlockHash = .ok bh → c.getBlockHeader bh = .ok hdr →
       (Ext.Collect c).1.map (fun m => (m.desc, m.kind)) =
         [(up, .gauge), (blocks, .counter), (peers, .gauge),
          (difficulty, .gauge), (bytesSent, .counter),
          (bytesReceived, .gauge), (latestBlock, .gauge)]) := by
  refine ⟨?_, ?_⟩ <;> intros <;>
    simp_all [Basic.Collect, Basic.GetAllStatistics, Basic.GetAllStatisticsTr,
      Basic.newBtcdStatistics, Ext.Collect, Ext.GetAllStatistics,
      Ext.GetAllStatisticsTr, Ext.newBtcdStatistics]

/-- Witness for C5 at the Scenario-A client, both variants. -/
theorem collect_success_value_kinds_witness :
    scenarioAClient.getInfo = .ok ⟨800000, 8, 55000000000000⟩ ∧
    (Basic.Collect scenarioAClient).1.map (fun m => (m.desc, m.kind)) =
      [(up, .gauge), (blocks, .counter), (peers, .gauge), (difficulty, .gauge),
       (bytesSent, .counter), (bytesReceived, .gauge)] ∧
    (Ext.Collect scenarioAClient).1.map (fun m => (m.desc, m.kind)) =
      [(up, .gauge), (blocks, .counter), (peers, .gauge), (difficulty, .gauge),
       (bytesSent, .counter), (bytesReceived, .gauge), (latestBlock, .gauge)] :=
  ⟨rfl,
   (collect_success_value_kinds scenarioAClient).1 _ _ rfl rfl,
   (collect_success_value_kinds scenarioAClient).2 _ _ _ _ rfl rfl rfl rfl⟩

/-- C6: in the extended variant, when all four queries succeed,
`getBlockHeader` is invoked with exactly the hash `getBestBlockHash`
returned, and the emitted `latest_block_timestamp` sample equals that block
header's Unix timestamp. -/
theorem ext_blockheader_hash_and_timestamp (c : Client)
    (info : InfoChainResult) (netTotals : GetNetTotalsResult)
    (bh : BlockHash) (hdr : BlockHeader)
    (hi : c.getInfo = .ok info) (hnt : c.getNetTotals = .ok netTotals)
    (hbh : c.getBestBlockHash = .ok bh) (hhd : c.getBlockHeader bh = .ok hdr) :
    (Ext.GetAllStatisticsTr c).2 =
      [.getInfo, .getNetTotals, .getBestBlockHash, .getBlockHeader bh] ∧
    ⟨latestBlock, .gauge, (hdr.TimestampUnix : Rat)⟩ ∈ (Ext.Collect c).1 := by
  constructor
  · simp [Ext.GetAllStatisticsTr, hi, hnt, hbh, hhd]
  · simp [Ext.Collect, Ext.GetAllStatistics, Ext.GetAllStatisticsTr,
      Ext.newBtcdStatistics, hi, hnt, hbh, hhd]

/-- Witness for C6 at the Scenario-A/C client: timestamp 1700000000, best
hash `"besthash"`. -/
theorem ext_blockheader_hash_and_timestamp_witness :
    scenarioAClient.getBestBlockHash = .ok "besthash" ∧
    scenarioAClient.getBlockHeader "besthash" = .ok ⟨1700000000⟩ ∧
    (Ext.GetAllStatisticsTr scenarioAClient).2 =
      [.getInfo, .getNetTotals, .getBestBlockHash, .getBlockHeader "besthash"] ∧
    ⟨latestBlock, .gauge, 1700000000⟩ ∈ (Ext.Collect scenarioAClient).1 :=
  ⟨rfl, rfl,
   (ext_blockheader_hash_and_timestamp scenarioAClient _ _ _ _
      rfl rfl rfl rfl).1,
   (ext_blockheader_hash_and_timestamp scenarioAClient _ _ _ _
      rfl rfl rfl rfl).2⟩

/-- C7: in both variants, if any required configuration variable (host,
username, password) is empty, startup ends in `log.Fatal` with the
diagnostic message and an empty event trace — no certificate read, no
upstream client created, no port bound. -/
theorem startup_missing_env_exits
    (host username password certPathEnv btcdHomeDir : String)
    (readFile : String → Except Err String) (rpcNew : Except Err Unit)
    (hmiss : host = "" ∨ username = "" ∨ password = "") :
    Ext.mainStartup host username password certPathEnv btcdHomeDir
        readFile rpcNew =
      (.fatal "BTCD_EXPORTER_HOST, BTCD_EXPORTER_USERNAME, BTCD_EXPORTER_PASSWORD must be set",
       []) ∧
    Basic.mainStartup host username password rpcNew =
      (.fatal "BTCD_EXPORTER_HOST, BTCD_EXPORTER_USERNAME, BTCD_EXPORTER_PASSWORD must be set",
       []) := by
  constructor <;>
    simp [Ext.mainStartup, Basic.mainStartup, if_pos hmiss]

/-- Witness for C7: host unset (empty), credentials present, a readable
filesystem and a working client constructor — startup still dies with the
diagnostic in both variants. -/
theorem startup_missing_env_exits_witness :
    (("" : String) = "" ∨ ("user" : String) = "" ∨ ("pass" : String) = "") ∧
    Ext.mainStartup "" "user" "pass" "/tmp/rpc.cert" "/home/me/.btcd"
        (fun _ => .ok "CERT") (.ok ()) =
      (.fatal "BTCD_EXPORTER_HOST, BTCD_EXPORTER_USERNAME, BTCD_EXPORTER_PASSWORD must be set",
       []) ∧
    Basic.mainStartup "" "user" "pass" (.ok ()) =
      (.fatal "BTCD_EXPORTER_HOST, BTCD_EXPORTER_USERNAME, BTCD_EXPORTER_PASSWORD must be set",
       []) :=
  ⟨Or.inl rfl,
   (startup_missing_env_exits "" "user" "pass" "/tmp/rpc.cert" "/home/me/.btcd"
      (fun _ => .ok "CERT") (.ok ()) (Or.inl rfl)).1,
   (startup_missing_env_exits "" "user" "pass" "/tmp/rpc.cert" "/home/me/.btcd"
      (fun _ => .ok "CERT") (.ok ()) (Or.inl rfl)).2⟩

/-- C8 counterexample: the claim asserts certificate-path defaulting and the
unreadable-certificate fatal in *both* variants, but the basic variant's
`main` never reads a certificate-path variable or any certificate file: with
valid credentials it proceeds all the way to binding the port, its event
trace containing no `readCertFile` event at all, whatever the filesystem
holds. -/
theorem basic_startup_ignores_cert_counterexample :
    Basic.mainStartup "node:8334" "user" "pass" (.ok ()) =
      (.serving,
       [.newRpcClient "node:8334" "user" "pass" none, .bindPort 9101]) := by
  decide

/-- C8 (amended to the extended variant): when the certificate-path variable
is unset, the extended variant defaults the path to `rpc.cert` under the
btcd application-data directory (the per-OS location computed by
`btcutil.AppDataDir`), and if reading that file fails, startup ends in
`log.Fatal` right after the read — the trace shows the single read of the
defaulted path and no client creation or port binding. -/
theorem ext_cert_default_and_unreadable_fatal
    (host username password btcdHomeDir : String)
    (readFile : String → Except Err String) (rpcNew : Except Err Unit)
    (e : Err) (hhost : host ≠ "") (huser : username ≠ "") (hpass : password ≠ "")
    (hread : readFile (filepathJoin btcdHomeDir "rpc.cert") = .error e) :
    Ext.mainStartup host username password "" btcdHomeDir readFile rpcNew =
      (.fatal ("error reading cert file: " ++ e),
       [.readCertFile (filepathJoin btcdHomeDir "rpc.cert")]) := by
  simp [Ext.mainStartup, hhost, huser, hpass, hread]

/-- Witness for the amended C8: unset path variable, home directory
`/home/me/.btcd`, a filesystem on which every read fails. -/
theorem ext_cert_default_and_unreadable_fatal_witness :
    ("node:8334" : String) ≠ "" ∧ ("user" : String) ≠ "" ∧
    ("pass" : String) ≠ "" ∧
    (fun _ : String => (.error "no such file or directory" : Except Err String))
        (filepathJoin "/home/me/.btcd" "rpc.cert") =
      .error "no such file or directory" ∧
    Ext.mainStartup "node:8334" "user" "pass" "" "/home/me/.btcd"
        (fun _ => .error "no such file or directory") (.ok ()) =
      (.fatal "error reading cert file: no such file or directory",
       [.readCertFile "/home/me/.btcd/rpc.cert"]) :=
  ⟨by decide, by decide, by decide, rfl,
   ext_cert_default_and_unreadable_fatal "node:8334" "user" "pass"
     "/home/me/.btcd" (fun _ => .error "no such file or directory") (.ok ())
     "no such file or directory" (by decide) (by decide) (by decide) rfl⟩

/-- C9: the set (here: the ordered list) of emitted metric names on a fully
successful scrape is the same for any two such scrapes, in both variants —
only the values may differ. -/
theorem collect_success_names_constant (c1 c2 : Client) :
    (∀ info1 netTotals1 info2 netTotals2,
       c1.getInfo = .ok info1 → c1.getNetTotals = .ok netTotals1 →
       c2.getInfo = .ok info2 → c2.getNetTotals = .ok netTotals2 →
       (Basic.Collect c1).1.map (fun m => m.desc.fqName) =
         (Basic.Collect c2).1.map (fun m => m.desc.fqName)) ∧
    (∀ info1 netTotals1 bh1 hdr1 info2 netTotals2 bh2 hdr2,
       c1.getInfo = .ok info1 → c1.getNetTotals = .ok netTotals1 →
       c1.getBestBlockHash = .ok bh1 → c1.getBlockHeader bh1 = .ok hdr1 →
       c2.getInfo = .ok info2 → c2.getNetTotals = .ok netTotals2 →
       c2.getBestBlockHash = .ok bh2 → c2.getBlockHeader bh2 = .ok hdr2 →
       (Ext.Collect c1).1.map (fun m => m.desc.fqName) =
         (Ext.Collect c2).1.map (fun m => m.desc.fqName)) := by
  refine ⟨?_, ?_⟩ <;> intros <;>
    simp_all [Basic.Collect, Basic.GetAllStatistics, Basic.GetAllStatisticsTr,
      Basic.newBtcdStatistics, Ext.Collect, Ext.GetAllStatistics,
      Ext.GetAllStatisticsTr, Ext.newBtcdStatistics]

/-- Witness for C9: two all-success clients with different field values emit
the same names in both variants. -/
theorem collect_success_names_constant_witness :
    scenarioAClient.getInfo = .ok ⟨800000, 8, 55000000000000⟩ ∧
    scenarioA2Client.getInfo = .ok ⟨800001, 9, 56000000000000⟩ ∧
    (Basic.Collect scenarioAClient).1.map (fun m => m.desc.fqName) =
      (Basic.Collect scenarioA2Client).1.map (fun m => m.desc.fqName) ∧
    (Ext.Collect scenarioAClient).1.map (fun m => m.desc.fqName) =
      (Ext.Collect scenarioA2Client).1.map (fun m => m.desc.fqName) :=
  ⟨rfl, rfl,
   (collect_success_names_constant scenarioAClient scenarioA2Client).1
     _ _ _ _ rfl rfl rfl rfl,
   (collect_success_names_constant scenarioAClient scenarioA2Client).2
     _ _ _ _ _ _ _ _ rfl rfl rfl rfl rfl rfl rfl rfl⟩

/-- C10: in each variant `Describe` emits, each exactly once, precisely the
descriptors a fully successful `Collect` uses — `up`, `blocks_total`,
`peers`, `difficulty`, `sent_bytes`, `received_bytes`, and in the extended
variant also `latest_block_timestamp`. -/
theorem describe_matches_collect_descriptors (c : Client) :
    Basic.describe.Nodup ∧ Ext.describe.Nodup ∧
    (∀ info netTotals,
       c.getInfo = .ok info → c.getNetTotals = .ok netTotals →
       (Basic.Collect c).1.map (fun m => m.desc) = Basic.describe) ∧
    (∀ info netTotals bh hdr,
       c.getInfo = .ok info → c.getNetTotals = .ok netTotals →
       c.getBestBlockHash = .ok bh → c.getBlockHeader bh = .ok hdr →
       (Ext.Collect c).1.map (fun m => m.desc) = Ext.describe) := by
  refine ⟨by decide, by decide, ?_, ?_⟩ <;> intros <;>
    simp_all [Basic.Collect, Basic.GetAllStatistics, Basic.GetAllStatisticsTr,
      Basic.newBtcdStatistics, Basic.describe, Ext.Collect,
      Ext.GetAllStatistics, Ext.GetAllStatisticsTr, Ext.newBtcdStatistics,
      Ext.describe]

/-- Witness for C10 at the Scenario-A client, both variants. -/
theorem describe_matches_collect_descriptors_witness :
    scenarioAClient.getInfo = .ok ⟨800000, 8, 55000000000000⟩ ∧
    (Basic.Collect scenarioAClient).1.map (fun m => m.desc) = Basic.describe ∧
    (Ext.Collect scenarioAClient).1.map (fun m => m.desc) = Ext.describe :=
  ⟨rfl,
   (describe_matches_collect_descriptors scenarioAClient).2.2.1 _ _ rfl rfl,
   (describe_matches_collect_descriptors scenarioAClient).2.2.2
     _ _ _ _ rfl rfl rfl rfl⟩
